import Mathlib

/-!
Verification of the PhonePe payment-session lifecycle coordinator.

This file is a shallow embedding of the repository's core components:

* `paymentService` (create / find / update-status against the payment store),
* the `AuthService` OAuth credential cache (`getAuthToken`),
* the webhook handler (`handleWebhook`),
* the pull-status reconciliation handler (`handlePaymentStatus`),
* the checkout and URL order-creation flows (`processCheckoutPayment`,
  `processPaymentRequest`) and the per-flow order-id generators.

Stateful code is modelled by explicit state passing (the store is a list of
payment records), network collaborators by explicit result parameters
(an oracle list of exchange results for the auth service, `Except` values
for gateway calls), and JavaScript truthiness of optional strings by the
`jsTruthy`/`jsOr` helpers.  Amounts are rationals; `Math.round` is the
floor of `x + 1/2`.
-/

deriving instance DecidableEq for Except

namespace PhonePe

/-- Truthiness of a JS value that is either a string or undefined:
`undefined`, `null` and `""` are falsy. -/
def jsTruthy : Option String → Bool
  | none => false
  | some s => s ≠ ""

/-- The JS expression `a || b` for two optional strings. -/
def jsOr (a b : Option String) : Option String :=
  if jsTruthy a then a else b

/-- The JS expression `a || d` where `d` is a string literal default. -/
def jsOrDefault : Option String → String → String
  | none, d => d
  | some s, d => if s = "" then d else s

/-- Truthiness of a JS numeric value: `undefined`, `null` and `0` are falsy. -/
def jsTruthyInt : Option Int → Bool
  | none => false
  | some n => n ≠ 0

/-- The JS `Math.round`, on the rational model of JS numbers:
round half toward positive infinity. -/
def mathRound (x : ℚ) : ℤ := ⌊x + 1/2⌋

/-! ### Gateway and webhook payload shapes -/

/-- The body of a successful `GET /checkout/v2/order/{id}/status` response,
restricted to the fields the reconciliation handlers read: `state`,
`amount` (minor units) and `metaInfo.udf1`. -/
structure OrderData where
  state : String
  amount : ℚ
  udf1 : Option String
  deriving Repr, DecidableEq

/-- A webhook notification body.  `merchantOrderId`/`code` are the top-level
fields, `dataMerchantOrderId`/`dataState` the nested `data.merchantOrderId`
and `data.state` fields; any of them may be absent. -/
structure WebhookPayload where
  merchantOrderId : Option String
  code : Option String
  dataMerchantOrderId : Option String
  dataState : Option String
  deriving Repr, DecidableEq

/-- A value stored in the schemaless `paymentDetails` bag of a record. -/
inductive DetailValue where
  | str (s : String)
  | num (q : ℚ)
  | orderSnapshot (o : OrderData)
  | webhookSnapshot (w : WebhookPayload)
  deriving Repr, DecidableEq

/-! ### Payment records and the store (src/models/Payment.js, paymentService) -/

/-- A persisted payment record (the `Payment` mongoose model): `orderId` is
the unique key, `amount` is kept in major units, `status` ranges over
"pending" / "success" / "failed" / "cancelled". -/
structure PaymentRecord where
  orderId : String
  domainName : String
  amount : ℚ
  status : String
  paymentDetails : List (String × DetailValue)
  deriving Repr, DecidableEq

/-- The persistent collection, one record per `orderId`. -/
abbrev Store := List PaymentRecord

/-- paymentService.getPaymentByOrderId: `Payment.findOne({orderId})`. -/
def findByOrderId (store : Store) (orderId : String) : Option PaymentRecord :=
  store.find? (fun r => r.orderId == orderId)

/-- The argument object callers pass to `paymentService.createPayment`.
Some call sites include a `status` field; the service does not read it. -/
structure CreatePaymentInput where
  orderId : String
  domainName : String
  amount : ℚ
  paymentDetails : List (String × DetailValue)
  statusField : Option String
  deriving Repr, DecidableEq

/-- paymentService.createPayment: constructs a new `Payment` document from
`orderId`, `domainName`, `amount` and `paymentDetails` only, with the
status hardwired to `"pending"`, and saves it; the save fails with a
duplicate-key error when a record with the same `orderId` already exists. -/
def createPayment (store : Store) (d : CreatePaymentInput) :
    Except String (Store × PaymentRecord) :=
  if (findByOrderId store d.orderId).isSome then
    .error ("duplicate key: " ++ d.orderId)
  else
    let r : PaymentRecord :=
      { orderId := d.orderId, domainName := d.domainName, amount := d.amount,
        status := "pending", paymentDetails := d.paymentDetails }
    .ok (store ++ [r], r)

/-- Merge a list of `$set` pairs into a details bag: each key overwrites any
earlier pair with the same key.  Dotted keys such as
`paymentDetails.webhookData` are kept verbatim. -/
def mergeDetails (base extra : List (String × DetailValue)) :
    List (String × DetailValue) :=
  extra.foldl (fun acc kv => acc.filter (fun p => p.1 ≠ kv.1) ++ [kv]) base

/-- The record produced by applying a status update with extra `$set`
pairs to an existing record. -/
def applyUpdate (r : PaymentRecord) (status : String)
    (extra : List (String × DetailValue)) : PaymentRecord :=
  { r with status := status, paymentDetails := mergeDetails r.paymentDetails extra }

/-- Update the first record matching `orderId` in place (the model of
`findOneAndUpdate`; `orderId` is a unique key so at most one matches). -/
def updateFirst (orderId status : String) (extra : List (String × DetailValue)) :
    Store → Store
  | [] => []
  | r :: rest =>
    if r.orderId == orderId then applyUpdate r status extra :: rest
    else r :: updateFirst orderId status extra rest

/-- paymentService.updatePaymentStatus: `findOneAndUpdate({orderId}, {$set:
{status, updatedAt, ...additionalDetails}}, {new:true})`, throwing
`Payment with orderId ... not found` when no record matches. -/
def updatePaymentStatus (store : Store) (orderId status : String)
    (extra : List (String × DetailValue)) : Except String (Store × PaymentRecord) :=
  match findByOrderId store orderId with
  | none => .error ("Payment with orderId " ++ orderId ++ " not found")
  | some r => .ok (updateFirst orderId status extra store, applyUpdate r status extra)

/-! ### HTTP responses -/

/-- The observable response of a controller handler. -/
inductive Response where
  /-- `res.redirect(url)`. -/
  | redirect (url : String)
  /-- Webhook acknowledgement: 200 with body `status: "RECEIVED"`. -/
  | ack
  /-- A success JSON body carrying the gateway redirect url and the order id. -/
  | jsonOk (redirectUrl : Option String) (orderId : String)
  /-- An error JSON body with an HTTP status, a `message` and an optional
  `error`/`details` field. -/
  | jsonError (status : Nat) (message : String) (errorDetail : Option String)
  deriving Repr, DecidableEq

/-- HTTP status code of a response (`res.redirect` defaults to 302). -/
def Response.httpStatus : Response → Nat
  | .redirect _ => 302
  | .ack => 200
  | .jsonOk _ _ => 200
  | .jsonError s _ _ => s

/-! ### Webhook handler (phonepeController.handleWebhook) -/

/-- Map a webhook `code`/`state` value to the local status vocabulary,
defaulting to `"pending"` for unrecognized codes. -/
def webhookDbStatus (paymentStatus : Option String) : String :=
  if paymentStatus = some "PAYMENT_SUCCESS" ∨ paymentStatus = some "COMPLETED" then
    "success"
  else if paymentStatus = some "PAYMENT_ERROR" ∨ paymentStatus = some "FAILED" then
    "failed"
  else if paymentStatus = some "PAYMENT_CANCELLED" ∨ paymentStatus = some "CANCELLED" then
    "cancelled"
  else "pending"

/-- phonepeController.handleWebhook: resolve the order id as
`payload.merchantOrderId || payload.data?.merchantOrderId` and the status as
`payload.code || payload.data?.state`; when an order id is present, update
the record (never create one) and acknowledge; when the update throws
(no matching record) the catch block answers 500. -/
def handleWebhook (store : Store) (p : WebhookPayload) : Store × Response :=
  let orderId := jsOr p.merchantOrderId p.dataMerchantOrderId
  let paymentStatus := jsOr p.code p.dataState
  if jsTruthy orderId then
    match updatePaymentStatus store (orderId.getD "") (webhookDbStatus paymentStatus)
        [("paymentDetails.webhookData", .webhookSnapshot p)] with
    | .error _ => (store, .jsonError 500 "Internal server error" none)
    | .ok (store₁, _) => (store₁, .ack)
  else
    (store, .ack)

/-! ### Pull-status reconciliation (phonepeController.handlePaymentStatus) -/

/-- Local status the handler writes back for the current gateway state on the
pull-status path: `success` for `COMPLETED`, `failed` for `FAILED`, and
`cancelled` for everything else. -/
def reconcileStatus (state : String) : String :=
  if state = "COMPLETED" then "success"
  else if state = "FAILED" then "failed"
  else "cancelled"

/-- Status value the handler passes in the backfill `createPayment` call:
`success` for `COMPLETED`, `failed` for `FAILED`, `pending` otherwise. -/
def backfillStatus (state : String) : String :=
  if state = "COMPLETED" then "success"
  else if state = "FAILED" then "failed"
  else "pending"

/-- The argument object of the backfill `createPayment` call inside
`handlePaymentStatus`: `domainName` is `orderData.metaInfo?.udf1 ||
"unknown-domain.com"`, the amount is converted back to major units, and a
gateway-state-derived `status` field is included. -/
def backfillInput (txnId : String) (od : OrderData) : CreatePaymentInput :=
  { orderId := txnId
    domainName := jsOrDefault od.udf1 "unknown-domain.com"
    amount := od.amount / 100
    paymentDetails :=
      [("phonepeResponse", .orderSnapshot od), ("createdFromCallback", .str "true")]
    statusField := some (backfillStatus od.state) }

/-- phonepeController.handlePaymentStatus (GET /api/phonepay/payment-status):
require `txnId`, fetch the order status from the gateway (`fetch` is the
outcome of that call), load the record by `txnId` and backfill one from the
gateway data when absent, then update its status and redirect to
`https://<domainName>/thankyou` on `COMPLETED` and `https://<domainName>/cart`
otherwise.  Any exception after parameter validation is caught and turned
into a `/payment-error` redirect. -/
def handlePaymentStatus (store : Store) (txnId? : Option String)
    (fetch : Except String OrderData) : Store × Response :=
  if ¬ jsTruthy txnId? then
    (store, .jsonError 400 "Transaction ID is required" none)
  else
    let txnId := txnId?.getD ""
    match fetch with
    | .error msg => (store, .redirect ("/payment-error?reason=" ++ msg))
    | .ok orderData =>
      let found := findByOrderId store txnId
      let afterBackfill : Store × Option PaymentRecord :=
        match found with
        | some r => (store, some r)
        | none =>
          match createPayment store (backfillInput txnId orderData) with
          | .ok (store₁, r) => (store₁, some r)
          | .error _ => (store, none)
      match afterBackfill with
      | (store₁, none) =>
        (store₁, .redirect ("/payment-error?txnId=" ++ txnId ++ "&reason=record_not_found"))
      | (store₁, some record) =>
        let domainName := record.domainName
        if orderData.state = "COMPLETED" then
          match updatePaymentStatus store₁ txnId "success"
              [("phonepeResponse", .orderSnapshot orderData)] with
          | .error msg => (store₁, .redirect ("/payment-error?reason=" ++ msg))
          | .ok (store₂, _) => (store₂, .redirect ("https://" ++ domainName ++ "/thankyou"))
        else
          let newStatus := if orderData.state = "FAILED" then "failed" else "cancelled"
          match updatePaymentStatus store₁ txnId newStatus
              [("phonepeResponse", .orderSnapshot orderData)] with
          | .error msg => (store₁, .redirect ("/payment-error?reason=" ++ msg))
          | .ok (store₂, _) => (store₂, .redirect ("https://" ++ domainName ++ "/cart"))

/-! ### Order-id generation (one generator per creation flow) -/

/-- createOrder / createOrderToken: `"TX" + Date.now()`. -/
def txOrderId (nowMs : Nat) : String := "TX" ++ Nat.repr nowMs

/-- createUniqueOrder: backtick-template `UNIQUE-<now>-<base36 random>`. -/
def uniqueOrderId (nowMs : Nat) (rand : String) : String :=
  "UNIQUE-" ++ Nat.repr nowMs ++ "-" ++ rand

/-- createOrderGet: `MULTI-<now>-<base36 random>`. -/
def multiOrderId (nowMs : Nat) (rand : String) : String :=
  "MULTI-" ++ Nat.repr nowMs ++ "-" ++ rand

/-- processCheckoutPayment: `CHECKOUT-<now>-<hex random>`. -/
def checkoutOrderId (nowMs : Nat) (hex : String) : String :=
  "CHECKOUT-" ++ Nat.repr nowMs ++ "-" ++ hex

/-- processPaymentRequest: `URL-<now>-<hex random>` (used when the caller
does not supply a `merchantOrderId`). -/
def urlOrderId (nowMs : Nat) (hex : String) : String :=
  "URL-" ++ Nat.repr nowMs ++ "-" ++ hex

/-- The order-id shape claimed by the specification:
`<FLOW_PREFIX>-<epochMillis>-<random suffix>`. -/
def coordinatorIdPattern (s : String) : Prop :=
  ∃ p t r, s = p ++ "-" ++ Nat.repr t ++ "-" ++ r

/-! ### Credential cache (authService.getAuthToken) -/

/-- The in-memory singleton state of `AuthService`. -/
structure AuthState where
  token : Option String
  tokenExpiry : Option Int
  retryCount : Nat
  deriving Repr, DecidableEq

/-- AuthService.maxRetries. -/
def maxRetries : Nat := 3

/-- AuthService.retryDelay, in milliseconds. -/
def retryDelay : Nat := 1000

/-- One possible outcome of a single OAuth token-exchange request. -/
inductive ExchangeResult where
  /-- 2xx response carrying `access_token` and `expires_at` (epoch seconds). -/
  | ok (accessToken : String) (expiresAt : Int)
  /-- 2xx response without an `access_token` field. -/
  | missingToken
  /-- Non-2xx HTTP response: the status, the optional `data.message` of the
  response body, and the generic axios error message. -/
  | httpError (status : Nat) (dataMessage : Option String) (message : String)
  /-- No response received (network error); only the error message exists. -/
  | networkError (message : String)
  deriving Repr, DecidableEq

/-- Observable outcome of a `getAuthToken` call: the returned token or the
thrown error message, the final cache state, the number of token-exchange
network calls made, and the backoff delays slept between attempts. -/
structure AuthOutcome where
  result : Except String String
  state : AuthState
  calls : Nat
  delays : List Nat
  deriving Repr, DecidableEq

/-- The cached-token guard of `getAuthToken`: `!forceRefresh && this.token &&
this.tokenExpiry && (this.tokenExpiry - 300) > Math.floor(Date.now()/1000)`. -/
def cachedFresh (st : AuthState) (forceRefresh : Bool) (now : Int) : Bool :=
  !forceRefresh && jsTruthy st.token && jsTruthyInt st.tokenExpiry &&
    decide (st.tokenExpiry.getD 0 - 300 > now)

/-- AuthService.getAuthToken.  `now` is the current time in epoch seconds and
the oracle list supplies the outcome of each successive token-exchange
request.  On a fresh cached token the call returns immediately without a
network call; otherwise one exchange is attempted: a success stores token and
expiry together and resets the retry counter, an HTTP 401 with
`retryCount < maxRetries` bumps the counter, sleeps
`retryDelay * 2 ^ (retryCount - 1)` ms and recurses with `forceRefresh =
true`, and every other failure (including 401 after the retries are
exhausted) throws `Failed to obtain auth token: <upstream detail>`. -/
def getAuthToken (st : AuthState) (forceRefresh : Bool) (now : Int) :
    List ExchangeResult → AuthOutcome
  | [] =>
    if cachedFresh st forceRefresh now then ⟨.ok (st.token.getD ""), st, 0, []⟩
    else ⟨.error "Failed to obtain auth token: no response received", st, 1, []⟩
  | r :: rest =>
    if cachedFresh st forceRefresh now then ⟨.ok (st.token.getD ""), st, 0, []⟩
    else
      match r with
      | .ok tok exp => ⟨.ok tok, ⟨some tok, some exp, 0⟩, 1, []⟩
      | .missingToken =>
        ⟨.error "Failed to obtain auth token: Invalid response from authentication server: Missing access token",
          st, 1, []⟩
      | .networkError msg => ⟨.error ("Failed to obtain auth token: " ++ msg), st, 1, []⟩
      | .httpError status dataMessage msg =>
        if status = 401 ∧ st.retryCount < maxRetries then
          let st₁ : AuthState := ⟨st.token, st.tokenExpiry, st.retryCount + 1⟩
          let out := getAuthToken st₁ true now rest
          ⟨out.result, out.state, out.calls + 1, (retryDelay * 2 ^ st.retryCount) :: out.delays⟩
        else
          ⟨.error ("Failed to obtain auth token: " ++ jsOrDefault dataMessage msg), st, 1, []⟩

/-! ### Order creation flows (processCheckoutPayment, processPaymentRequest) -/

/-- Conversion of a major-unit amount to the minor units sent to the gateway:
`Math.round(amount * 100)`. -/
def toMinorUnits (a : ℚ) : ℤ := mathRound (a * 100)

/-- The caller-supplied parameters of the checkout and URL flows.  `amount`
is the result of `parseFloat` on the raw parameter (`none` for NaN);
`merchantOrderId` is only read by the URL flow. -/
structure FlowBody where
  domain : Option String
  amount : Option ℚ
  name : Option String
  mobile : Option String
  merchantOrderId : Option String
  deriving Repr, DecidableEq

/-- External collaborators of an order-creation flow: the outcome of the
auth-token call, the outcome of the gateway create-order call (`ok` carries
the optional `redirectUrl` of the response body), and whether the store is
reachable (`dbDown = some msg` makes the `createPayment` attempt throw). -/
structure FlowEnv where
  auth : Except String String
  gateway : Except String (Option String)
  dbDown : Option String
  deriving Repr, DecidableEq

/-- Observable outcome of an order-creation flow: the HTTP response, the
store after the call, which collaborators were invoked, and the minor-unit
amount carried by the payload sent to the gateway (when one was sent). -/
structure FlowResult where
  response : Response
  store : Store
  authCalled : Bool
  gatewayCalled : Bool
  persistAttempted : Bool
  sentAmount : Option ℤ
  deriving Repr, DecidableEq

/-- The try/catch around a best-effort `createPayment` during order creation:
a throw (store down or duplicate key) is logged and the original store kept. -/
def attemptCreatePayment (env : FlowEnv) (store : Store) (d : CreatePaymentInput) : Store :=
  match env.dbDown with
  | some _ => store
  | none =>
    match createPayment store d with
    | .ok (store₁, _) => store₁
    | .error _ => store

/-- phonepeController.processCheckoutPayment (POST /api/phonepay/checkout-payment):
validate `domain` then `amount`, generate `CHECKOUT-<now>-<hex>`, attempt to
persist a pending record (failure only logged), get the auth token, POST the
order to the gateway with `amount = Math.round(amount * 100)`, and answer
with JSON carrying the gateway redirect url.  An exception from the auth or
gateway call reaches the outer catch, which answers 500. -/
def processCheckoutPayment (store : Store) (env : FlowEnv) (nowMs : Nat)
    (hex : String) (body : FlowBody) : FlowResult :=
  if ¬ jsTruthy body.domain then
    ⟨.jsonError 400 "Domain name is required" none, store, false, false, false, none⟩
  else
    match body.amount with
    | none =>
      ⟨.jsonError 400 "Valid payment amount is required" none, store, false, false, false, none⟩
    | some a =>
      if a ≤ 0 then
        ⟨.jsonError 400 "Valid payment amount is required" none, store, false, false, false, none⟩
      else
        let orderId := checkoutOrderId nowMs hex
        let store₁ := attemptCreatePayment env store
          { orderId := orderId, domainName := body.domain.getD "", amount := a
            paymentDetails :=
              [("name", .str (body.name.getD "")), ("mobile", .str (body.mobile.getD ""))]
            statusField := none }
        match env.auth with
        | .error msg =>
          ⟨.jsonError 500 "Failed to process checkout payment" (some msg),
            store₁, true, false, true, none⟩
        | .ok _ =>
          match env.gateway with
          | .error msg =>
            ⟨.jsonError 500 "Failed to process checkout payment" (some msg),
              store₁, true, true, true, some (toMinorUnits a)⟩
          | .ok redirectUrl =>
            ⟨.jsonOk redirectUrl orderId, store₁, true, true, true, some (toMinorUnits a)⟩

/-- phonepeController.processPaymentRequest (GET /api/phonepay/process-payment):
same validation and best-effort persistence as the checkout flow, with the
order id taken from `merchantOrderId` when supplied; on success the browser
is redirected to the gateway url, and a success response without a
`redirectUrl` yields a 500. -/
def processPaymentRequest (store : Store) (env : FlowEnv) (nowMs : Nat)
    (hex : String) (body : FlowBody) : FlowResult :=
  if ¬ jsTruthy body.domain then
    ⟨.jsonError 400 "Domain name is required" none, store, false, false, false, none⟩
  else
    match body.amount with
    | none =>
      ⟨.jsonError 400 "Valid payment amount is required" none, store, false, false, false, none⟩
    | some a =>
      if a ≤ 0 then
        ⟨.jsonError 400 "Valid payment amount is required" none, store, false, false, false, none⟩
      else
        let orderId := jsOrDefault body.merchantOrderId (urlOrderId nowMs hex)
        let store₁ := attemptCreatePayment env store
          { orderId := orderId, domainName := body.domain.getD "", amount := a
            paymentDetails :=
              [("name", .str (jsOrDefault body.name "Customer")),
                ("mobile", .str (body.mobile.getD "")), ("source", .str "URL_PARAMS")]
            statusField := none }
        match env.auth with
        | .error msg =>
          ⟨.jsonError 500 "Failed to process payment request" (some msg),
            store₁, true, false, true, none⟩
        | .ok tok =>
          if tok = "" then
            ⟨.jsonError 500 "Authentication failed with payment gateway" none,
              store₁, true, false, true, none⟩
          else
            match env.gateway with
            | .error msg =>
              ⟨.jsonError 500 "Failed to process payment request" (some msg),
                store₁, true, true, true, some (toMinorUnits a)⟩
            | .ok redirectUrl =>
              if jsTruthy redirectUrl then
                ⟨.redirect (redirectUrl.getD ""), store₁, true, true, true,
                  some (toMinorUnits a)⟩
              else
                ⟨.jsonError 500 "No redirect URL received from payment gateway" none,
                  store₁, true, true, true, some (toMinorUnits a)⟩

/-! ### Helper lemmas -/

/-- The cached-token guard never fires on a forced refresh. -/
theorem cachedFresh_force (st : AuthState) (now : Int) :
    cachedFresh st true now = false := by
  simp [cachedFresh]

/-- Claim C3: for every webhook invocation, regardless of the internal
processing outcome (including a store update that fails because no record
matches the merchantOrderId), the handler responds with HTTP 200 and a small
acknowledgement body; the webhook path never creates a new payment record.
The code violates the always-200 half: evaluated on the payload
`merchantOrderId = "X1"`, `code = "PAYMENT_ERROR"` against an empty store,
the status update throws, the catch block answers HTTP 500, and the store is
left unchanged (no backfill, as the claim says). -/
theorem c3_webhook_store_failure_returns_500 :
    handleWebhook [] ⟨some "X1", some "PAYMENT_ERROR", none, none⟩ =
      ([], .jsonError 500 "Internal server error" none) ∧
    (handleWebhook [] ⟨some "X1", some "PAYMENT_ERROR", none, none⟩).2.httpStatus = 500 ∧
    (500 : Nat) ≠ 200 := by
  decide

/-- Claim C10: a webhook invocation whose payload carries no merchant order
id (neither top-level nor nested) performs no store operation at all and
still acknowledges with HTTP 200 and body `status: "RECEIVED"`. -/
theorem c10_webhook_without_order_id_is_pure_ack (store : Store) (p : WebhookPayload)
    (h : jsTruthy (jsOr p.merchantOrderId p.dataMerchantOrderId) = false) :
    handleWebhook store p = (store, .ack) ∧ Response.ack.httpStatus = 200 := by
  refine ⟨?_, rfl⟩
  unfold handleWebhook
  simp [h]

/-- Witness for C10 at the concrete payload `code = "PAYMENT_ERROR"` with no
merchant order id, against the empty store. -/
theorem c10_webhook_without_order_id_is_pure_ack_witness :
    jsTruthy (jsOr (none : Option String) none) = false ∧
    (handleWebhook [] ⟨none, some "PAYMENT_ERROR", none, none⟩ = ([], .ack) ∧
      Response.ack.httpStatus = 200) :=
  ⟨by decide,
    c10_webhook_without_order_id_is_pure_ack [] ⟨none, some "PAYMENT_ERROR", none, none⟩
      (by decide)⟩

/-- Claim C5: with `forceRefresh` false, a cached token whose expiry minus
the 300 s safety margin lies strictly after the current time is returned
with no network call; otherwise one exchange happens and, on success, token
and expiry are stored together and the retry counter is reset.  In
particular a token with expiry `T + 3600` is reused at `T + 3000` but
triggers a refresh at `T + 3400`. -/
theorem c5_token_cache_reuse_and_refresh :
    (∀ (st : AuthState) (now : Int) (oracle : List ExchangeResult) (tk : String) (e : Int),
      st.token = some tk → tk ≠ "" → st.tokenExpiry = some e → e ≠ 0 →
      e - 300 > now →
      getAuthToken st false now oracle = ⟨.ok tk, st, 0, []⟩) ∧
    (∀ (st : AuthState) (now : Int) (tok : String) (e : Int) (rest : List ExchangeResult),
      cachedFresh st false now = false →
      getAuthToken st false now (.ok tok e :: rest) = ⟨.ok tok, ⟨some tok, some e, 0⟩, 1, []⟩) ∧
    (∀ (T : Int) (tk : String), 0 ≤ T → tk ≠ "" →
      cachedFresh ⟨some tk, some (T + 3600), 0⟩ false (T + 3000) = true ∧
      cachedFresh ⟨some tk, some (T + 3600), 0⟩ false (T + 3400) = false) := by
  refine ⟨?_, ?_, ?_⟩
  · intro st now oracle tk e htok htk hexp he hfresh
    have hc : cachedFresh st false now = true := by
      simp [cachedFresh, htok, hexp, jsTruthy, jsTruthyInt, htk, he, hfresh]
    cases oracle <;> simp [getAuthToken, hc, htok]
  · intro st now tok e rest hc
    simp [getAuthToken, hc]
  · intro T tk hT htk
    constructor
    · simp only [cachedFresh, jsTruthy, jsTruthyInt, Option.getD]
      simp [htk]
      omega
    · simp only [cachedFresh, jsTruthy, jsTruthyInt, Option.getD]
      simp [htk]
      omega

/-- Witness for C5: a token obtained at `T = 100` with expiry 3700 is reused
at time 3100 with no network call, and the cache guard rejects it at 3500. -/
theorem c5_token_cache_reuse_and_refresh_witness :
    (getAuthToken ⟨some "tk", some 3700, 0⟩ false 3100 [] =
      ⟨.ok "tk", ⟨some "tk", some 3700, 0⟩, 0, []⟩) ∧
    cachedFresh ⟨some "tk", some 3700, 0⟩ false 3500 = false ∧
    (getAuthToken ⟨some "tk", some 3700, 0⟩ false 3500 [.ok "fresh" 7200] =
      ⟨.ok "fresh", ⟨some "fresh", some 7200, 0⟩, 1, []⟩) :=
  ⟨c5_token_cache_reuse_and_refresh.1 ⟨some "tk", some 3700, 0⟩ 3100 [] "tk" 3700
      rfl (by decide) rfl (by decide) (by decide),
    (c5_token_cache_reuse_and_refresh.2.2 100 "tk" (by decide) (by decide)).2,
    c5_token_cache_reuse_and_refresh.2.1 ⟨some "tk", some 3700, 0⟩ 3500 "fresh" 7200 []
      (by decide)⟩

/-- Claim C6: a token exchange failing with HTTP 401 is retried with
exponential backoff (1000 ms, then doubling) up to 3 retries, each forcing a
refresh; exhausting the retries, or any non-401 failure, throws
`Failed to obtain auth token: <upstream detail>`. -/
theorem c6_auth_retry_backoff :
    (∀ (st : AuthState) (now : Int) (d₁ d₂ d₃ d₄ : Option String) (m₁ m₂ m₃ m₄ : String),
      st.retryCount = 0 → cachedFresh st false now = false →
      getAuthToken st false now
        [.httpError 401 d₁ m₁, .httpError 401 d₂ m₂, .httpError 401 d₃ m₃,
          .httpError 401 d₄ m₄] =
        ⟨.error ("Failed to obtain auth token: " ++ jsOrDefault d₄ m₄),
          ⟨st.token, st.tokenExpiry, 3⟩, 4, [1000, 2000, 4000]⟩) ∧
    (∀ (st : AuthState) (now : Int) (d : Option String) (m : String) (tok : String) (e : Int)
        (rest : List ExchangeResult),
      st.retryCount = 0 → cachedFresh st false now = false →
      getAuthToken st false now (.httpError 401 d m :: .ok tok e :: rest) =
        ⟨.ok tok, ⟨some tok, some e, 0⟩, 2, [1000]⟩) ∧
    (∀ (st : AuthState) (now : Int) (d : Option String) (m : String)
        (rest : List ExchangeResult),
      cachedFresh st false now = false →
      getAuthToken st false now (.httpError 500 d m :: rest) =
        ⟨.error ("Failed to obtain auth token: " ++ jsOrDefault d m), st, 1, []⟩) ∧
    (∀ (st : AuthState) (now : Int) (m : String) (rest : List ExchangeResult),
      cachedFresh st false now = false →
      getAuthToken st false now (.networkError m :: rest) =
        ⟨.error ("Failed to obtain auth token: " ++ m), st, 1, []⟩) := by
  refine ⟨?_, ?_, ?_, ?_⟩
  · intro st now d₁ d₂ d₃ d₄ m₁ m₂ m₃ m₄ hrc hc
    obtain ⟨t, te, rc⟩ := st
    simp only at hrc
    subst hrc
    simp [getAuthToken, hc, cachedFresh_force, maxRetries, retryDelay]
  · intro st now d m tok e rest hrc hc
    obtain ⟨t, te, rc⟩ := st
    simp only at hrc
    subst hrc
    simp [getAuthToken, hc, cachedFresh_force, maxRetries, retryDelay]
  · intro st now d m rest hc
    simp [getAuthToken, hc, maxRetries]
  · intro st now m rest hc
    simp [getAuthToken, hc]

/-- Witness for C6 on a cold cache: four straight 401 responses exhaust the
three retries with delays 1000/2000/4000 ms and surface the last upstream
detail; a 500 fails at once with no retry. -/
theorem c6_auth_retry_backoff_witness :
    (getAuthToken ⟨none, none, 0⟩ false 100
      [.httpError 401 none "e1", .httpError 401 none "e2", .httpError 401 none "e3",
        .httpError 401 (some "Bad credentials") "e4"] =
      ⟨.error "Failed to obtain auth token: Bad credentials", ⟨none, none, 3⟩, 4,
        [1000, 2000, 4000]⟩) ∧
    (getAuthToken ⟨none, none, 0⟩ false 100 [.httpError 500 none "boom"] =
      ⟨.error "Failed to obtain auth token: boom", ⟨none, none, 0⟩, 1, []⟩) :=
  ⟨by
    have h := c6_auth_retry_backoff.1 ⟨none, none, 0⟩ 100 none none none
      (some "Bad credentials") "e1" "e2" "e3" "e4" rfl (by decide)
    simpa [jsOrDefault] using h,
    by
    have h := c6_auth_retry_backoff.2.2.1 ⟨none, none, 0⟩ 100 none "boom" [] (by decide)
    simpa [jsOrDefault] using h⟩

/-- Updating the matching record leaves it findable, with the update applied. -/
theorem findByOrderId_updateFirst (store : Store) (oid st : String)
    (extra : List (String × DetailValue)) :
    findByOrderId (updateFirst oid st extra store) oid =
      (findByOrderId store oid).map (fun r => applyUpdate r st extra) := by
  induction store with
  | nil => rfl
  | cons x xs ih =>
    by_cases hx : x.orderId == oid
    · have hx₁ : ((applyUpdate x st extra).orderId == oid) = true := hx
      simp [updateFirst, findByOrderId, hx, List.find?_cons_of_pos, hx₁]
    · have hx₀ : (x.orderId == oid) = false := by simpa using hx
      simp only [updateFirst, hx₀, if_neg, Bool.false_eq_true, not_false_iff]
      simp only [findByOrderId] at ih ⊢
      rw [List.find?_cons_of_neg _ (by simp [hx₀]), List.find?_cons_of_neg _ (by simp [hx₀])]
      exact ih

/-- `updateFirst` passes over a segment that contains no matching record. -/
theorem updateFirst_append_of_none (store tail : Store) (oid st : String)
    (extra : List (String × DetailValue))
    (h : findByOrderId store oid = none) :
    updateFirst oid st extra (store ++ tail) = store ++ updateFirst oid st extra tail := by
  induction store with
  | nil => simp
  | cons x xs ih =>
    have hx : ¬ (x.orderId == oid) = true := by
      intro hx
      simp [findByOrderId, List.find?_cons_of_pos, hx] at h
    have hall : ∀ a ∈ x :: xs, ¬ a.orderId = oid := by
      simpa [findByOrderId] using h
    have h' : findByOrderId xs oid = none := by
      simp only [findByOrderId, List.find?_eq_none, beq_iff_eq]
      exact fun a ha => hall a (List.mem_cons_of_mem _ ha)
    simp [updateFirst, hx, ih h']

/-- Finding in an appended store skips a segment with no matching record. -/
theorem findByOrderId_append_of_none (store tail : Store) (oid : String)
    (h : findByOrderId store oid = none) :
    findByOrderId (store ++ tail) oid = findByOrderId tail oid := by
  simp only [findByOrderId] at h ⊢
  simp [List.find?_append, h]

/-- No string of the shape `"https://" ++ d ++ t` is a same-origin path
(one that starts with `"/"`). -/
theorem https_url_is_not_a_path (d t : String) :
    ¬ ∃ rest, "https://" ++ d ++ t = "/" ++ rest := by
  rintro ⟨rest, h⟩
  have hd := congrArg String.data h
  simp only [String.data_append] at hd
  simp at hd

/-- Claim C1, counterexample: reconciling a `COMPLETED` order whose record
has the dot-less `domainName = "localhost"` redirects to
`https://localhost/thankyou` — an external-host URL, not a same-origin
path, contradicting the claim's no-dot clause. -/
theorem c1_counterexample :
    '.' ∉ "localhost".data ∧
    (handlePaymentStatus [⟨"T1", "localhost", 10, "pending", []⟩] (some "T1")
        (.ok ⟨"COMPLETED", 1000, none⟩)).2 = .redirect "https://localhost/thankyou" ∧
    ¬ ∃ rest, "https://localhost/thankyou" = "/" ++ rest :=
  ⟨by decide, by decide, https_url_is_not_a_path "localhost" "/thankyou"⟩

/-- Claim C1, amended: a pull-status reconcile of a `COMPLETED` order with
an existing record sets the record's status to `success` and redirects to
`https://<domainName>/thankyou` — which ends in `/thankyou` — regardless of
whether `domainName` contains a dot; there is no same-origin-path fallback,
so a dot-less `domainName` still produces the external-host form. -/
theorem c1_amended (store : Store) (txnId : String) (r : PaymentRecord) (od : OrderData)
    (htxn : txnId ≠ "") (hfind : findByOrderId store txnId = some r)
    (hstate : od.state = "COMPLETED") :
    handlePaymentStatus store (some txnId) (.ok od) =
      (updateFirst txnId "success" [("phonepeResponse", .orderSnapshot od)] store,
        .redirect ("https://" ++ r.domainName ++ "/thankyou")) ∧
    findByOrderId
        (updateFirst txnId "success" [("phonepeResponse", .orderSnapshot od)] store) txnId =
      some (applyUpdate r "success" [("phonepeResponse", .orderSnapshot od)]) ∧
    (applyUpdate r "success" [("phonepeResponse", .orderSnapshot od)]).status = "success" ∧
    (∃ p, "https://" ++ r.domainName ++ "/thankyou" = p ++ "/thankyou") ∧
    ¬ ∃ rest, "https://" ++ r.domainName ++ "/thankyou" = "/" ++ rest := by
  refine ⟨?_, ?_, rfl, ⟨"https://" ++ r.domainName, rfl⟩,
    https_url_is_not_a_path r.domainName "/thankyou"⟩
  · unfold handlePaymentStatus
    simp [jsTruthy, htxn, hfind, hstate, updatePaymentStatus]
  · rw [findByOrderId_updateFirst, hfind]
    rfl

/-- Witness for C1 amended: a `COMPLETED` order with an existing record for
`shop.example.com` is marked `success` and redirected to the thank-you page. -/
theorem c1_amended_witness :
    ("T1" : String) ≠ "" ∧
    findByOrderId [⟨"T1", "shop.example.com", 10, "pending", []⟩] "T1" =
      some ⟨"T1", "shop.example.com", 10, "pending", []⟩ ∧
    (handlePaymentStatus [⟨"T1", "shop.example.com", 10, "pending", []⟩] (some "T1")
        (.ok ⟨"COMPLETED", 1000, none⟩) =
      (updateFirst "T1" "success"
          [("phonepeResponse", .orderSnapshot ⟨"COMPLETED", 1000, none⟩)]
          [⟨"T1", "shop.example.com", 10, "pending", []⟩],
        .redirect ("https://" ++ "shop.example.com" ++ "/thankyou")) ∧
      findByOrderId
          (updateFirst "T1" "success"
            [("phonepeResponse", .orderSnapshot ⟨"COMPLETED", 1000, none⟩)]
            [⟨"T1", "shop.example.com", 10, "pending", []⟩]) "T1" =
        some (applyUpdate ⟨"T1", "shop.example.com", 10, "pending", []⟩ "success"
          [("phonepeResponse", .orderSnapshot ⟨"COMPLETED", 1000, none⟩)]) ∧
      (applyUpdate ⟨"T1", "shop.example.com", 10, "pending", []⟩ "success"
          [("phonepeResponse", .orderSnapshot ⟨"COMPLETED", 1000, none⟩)]).status =
        "success" ∧
      (∃ p, "https://" ++ "shop.example.com" ++ "/thankyou" = p ++ "/thankyou") ∧
      ¬ ∃ rest, "https://" ++ "shop.example.com" ++ "/thankyou" = "/" ++ rest) :=
  ⟨by decide, by decide,
    c1_amended [⟨"T1", "shop.example.com", 10, "pending", []⟩] "T1"
      ⟨"T1", "shop.example.com", 10, "pending", []⟩ ⟨"COMPLETED", 1000, none⟩
      (by decide) (by decide) rfl⟩

/-- The record the backfill `createPayment` call persists (status hardwired
to `"pending"` by the service, whatever the input's `status` field says). -/
def backfillRecord (txnId : String) (od : OrderData) : PaymentRecord :=
  { orderId := txnId
    domainName := jsOrDefault od.udf1 "unknown-domain.com"
    amount := od.amount / 100
    status := "pending"
    paymentDetails :=
      [("phonepeResponse", .orderSnapshot od), ("createdFromCallback", .str "true")] }

/-- Claim C2, counterexample: for a `COMPLETED` gateway state the handler
passes `status: "success"` in its backfill argument, but the record the
service persists has status `"pending"` — the initial persisted status is
not derived from the gateway state. -/
theorem c2_counterexample :
    (backfillInput "X9" ⟨"COMPLETED", 4999, some "shop.example.com"⟩).statusField =
      some "success" ∧
    (createPayment [] (backfillInput "X9" ⟨"COMPLETED", 4999, some "shop.example.com"⟩)).map
      (fun p => p.2.status) = .ok "pending" ∧
    ("pending" : String) ≠ "success" := by
  decide

/-- Claim C2, amended: a pull-status reconcile with no existing record
synthesizes one whose `domainName` is the gateway `udf1` when non-empty and
`"unknown-domain.com"` otherwise; the controller passes a status derived
from the gateway state (`success`/`failed`/`pending`), but the service
ignores it, so the initial persisted status is always `"pending"`; the
subsequent update in the same call then sets the status from the gateway
state (`success` for COMPLETED, `failed` for FAILED, `cancelled` otherwise). -/
theorem c2_amended (store : Store) (txnId : String) (od : OrderData)
    (htxn : txnId ≠ "") (hfind : findByOrderId store txnId = none) :
    createPayment store (backfillInput txnId od) =
      .ok (store ++ [backfillRecord txnId od], backfillRecord txnId od) ∧
    (backfillRecord txnId od).status = "pending" ∧
    (backfillRecord txnId od).domainName = jsOrDefault od.udf1 "unknown-domain.com" ∧
    (backfillInput txnId od).statusField = some (backfillStatus od.state) ∧
    (handlePaymentStatus store (some txnId) (.ok od)).1 =
      store ++ [applyUpdate (backfillRecord txnId od) (reconcileStatus od.state)
        [("phonepeResponse", .orderSnapshot od)]] := by
  have hcreate : createPayment store (backfillInput txnId od) =
      .ok (store ++ [backfillRecord txnId od], backfillRecord txnId od) := by
    simp [createPayment, backfillInput, backfillRecord, hfind]
  refine ⟨hcreate, rfl, rfl, rfl, ?_⟩
  have hbeq : ((backfillRecord txnId od).orderId == txnId) = true := by
    simp [backfillRecord]
  have hfind₁ : findByOrderId (store ++ [backfillRecord txnId od]) txnId =
      some (backfillRecord txnId od) := by
    rw [findByOrderId_append_of_none _ _ _ hfind]
    simp [findByOrderId, hbeq]
  have hupd : ∀ s : String,
      updateFirst txnId s [("phonepeResponse", .orderSnapshot od)]
        (store ++ [backfillRecord txnId od]) =
      store ++ [applyUpdate (backfillRecord txnId od) s
        [("phonepeResponse", .orderSnapshot od)]] := by
    intro s
    rw [updateFirst_append_of_none _ _ _ _ _ hfind]
    simp [updateFirst, hbeq]
  have hts : jsTruthy (some txnId) = true := by simp [jsTruthy, htxn]
  by_cases hc : od.state = "COMPLETED"
  · simp [handlePaymentStatus, hts, hfind, hcreate, hc, updatePaymentStatus, hfind₁,
      hupd, reconcileStatus]
  · by_cases hf : od.state = "FAILED"
    · simp [handlePaymentStatus, hts, hfind, hcreate, hc, hf, updatePaymentStatus,
        hfind₁, hupd, reconcileStatus]
    · simp [handlePaymentStatus, hts, hfind, hcreate, hc, hf, updatePaymentStatus,
        hfind₁, hupd, reconcileStatus]

/-- Witness for C2 amended at a `PENDING` gateway state and the empty store:
the backfilled record starts as `"pending"` and the same call then marks it
`"cancelled"`. -/
theorem c2_amended_witness :
    ("X9" : String) ≠ "" ∧
    findByOrderId [] "X9" = none ∧
    (createPayment [] (backfillInput "X9" ⟨"PENDING", 100, none⟩) =
      .ok ([] ++ [backfillRecord "X9" ⟨"PENDING", 100, none⟩],
        backfillRecord "X9" ⟨"PENDING", 100, none⟩) ∧
    (backfillRecord "X9" ⟨"PENDING", 100, none⟩).status = "pending" ∧
    (backfillRecord "X9" ⟨"PENDING", 100, none⟩).domainName =
      jsOrDefault none "unknown-domain.com" ∧
    (backfillInput "X9" ⟨"PENDING", 100, none⟩).statusField =
      some (backfillStatus "PENDING") ∧
    (handlePaymentStatus [] (some "X9") (.ok ⟨"PENDING", 100, none⟩)).1 =
      [] ++ [applyUpdate (backfillRecord "X9" ⟨"PENDING", 100, none⟩)
        (reconcileStatus "PENDING")
        [("phonepeResponse", .orderSnapshot ⟨"PENDING", 100, none⟩)]]) :=
  ⟨by decide, rfl, c2_amended [] "X9" ⟨"PENDING", 100, none⟩ (by decide) rfl⟩

/-- Claim C4, counterexample: the order id generated by `createOrder`
(`"TX" + Date.now()`) does not match the claimed
`<FLOW_PREFIX>-<epochMillis>-<random>` pattern — it contains no separator
and no random suffix at all. -/
theorem c4_counterexample :
    txOrderId 1760000000000 = "TX1760000000000" ∧
    ¬ coordinatorIdPattern (txOrderId 1760000000000) := by
  refine ⟨rfl, ?_⟩
  rintro ⟨p, t, r, h⟩
  have hmem : '-' ∈ (p ++ "-" ++ Nat.repr t ++ "-" ++ r).data := by
    simp only [String.data_append]
    have hdash : '-' ∈ ("-" : String).data := by decide
    exact List.mem_append_left _ (List.mem_append_left _
      (List.mem_append_left _ (List.mem_append_right _ hdash)))
  rw [← h] at hmem
  exact absurd hmem (by decide)

/-- Claim C4, amended: the checkout, URL, unique and multi flows generate
ids of the claimed shape `<FLOW_PREFIX>-<epochMillis>-<suffix>`, and within
one millisecond two such ids are equal exactly when their random suffixes
are; the TX flows (`createOrder`, `createOrderToken`) instead generate
`TX<epochMillis>` with no separator and no random component, so their ids do
not match the pattern and rapid same-millisecond generations coincide. -/
theorem c4_amended :
    (∀ t h, checkoutOrderId t h = "CHECKOUT-" ++ Nat.repr t ++ "-" ++ h) ∧
    (∀ t h, urlOrderId t h = "URL-" ++ Nat.repr t ++ "-" ++ h) ∧
    (∀ t r, uniqueOrderId t r = "UNIQUE-" ++ Nat.repr t ++ "-" ++ r) ∧
    (∀ t r, multiOrderId t r = "MULTI-" ++ Nat.repr t ++ "-" ++ r) ∧
    (∀ t h, coordinatorIdPattern (checkoutOrderId t h)) ∧
    (∀ t h, coordinatorIdPattern (urlOrderId t h)) ∧
    (∀ t h₁ h₂, checkoutOrderId t h₁ = checkoutOrderId t h₂ ↔ h₁ = h₂) ∧
    (∀ t h₁ h₂, urlOrderId t h₁ = urlOrderId t h₂ ↔ h₁ = h₂) ∧
    (∀ t, txOrderId t = "TX" ++ Nat.repr t) := by
  have hinj : ∀ (a : String) (t : ℕ) (h₁ h₂ : String),
      a ++ Nat.repr t ++ "-" ++ h₁ = a ++ Nat.repr t ++ "-" ++ h₂ ↔ h₁ = h₂ := by
    intro a t h₁ h₂
    constructor
    · intro h
      have hd := congrArg String.data h
      simp only [String.data_append] at hd
      have hd₁ := List.append_cancel_left hd
      exact String.ext hd₁
    · intro h
      rw [h]
  refine ⟨fun t h => rfl, fun t h => rfl, fun t r => rfl, fun t r => rfl,
    fun t h => ⟨"CHECKOUT", t, h, rfl⟩, fun t h => ⟨"URL", t, h, rfl⟩,
    ?_, ?_, fun t => rfl⟩
  · intro t h₁ h₂
    exact hinj "CHECKOUT-" t h₁ h₂
  · intro t h₁ h₂
    exact hinj "URL-" t h₁ h₂

/-- Witness for C4 amended at a concrete timestamp and suffix. -/
theorem c4_amended_witness :
    checkoutOrderId 1760000000000 "a1b2" = "CHECKOUT-" ++ Nat.repr 1760000000000 ++ "-" ++ "a1b2" ∧
    coordinatorIdPattern (urlOrderId 1760000000000 "c3d4") ∧
    (checkoutOrderId 1760000000000 "a1b2" = checkoutOrderId 1760000000000 "z9y8" ↔
      ("a1b2" : String) = "z9y8") :=
  ⟨c4_amended.1 1760000000000 "a1b2",
    c4_amended.2.2.2.2.2.1 1760000000000 "c3d4",
    c4_amended.2.2.2.2.2.2.1 1760000000000 "a1b2" "z9y8"⟩

/-- Claim C7: in the checkout and URL flows a failure of the best-effort
persist of the pending record is only logged — the gateway call still
happens and its result is returned — while a failure of the gateway call
itself aborts the operation with a 500 response carrying the error, never
swallowed. -/
theorem c7_persist_best_effort_gateway_fatal :
    (∀ (store : Store) (msg : String) (nowMs : Nat) (hex d tok : String)
        (a : ℚ) (url : Option String) (nm mb mo : Option String),
      d ≠ "" → 0 < a →
      processCheckoutPayment store ⟨.ok tok, .ok url, some msg⟩ nowMs hex
          ⟨some d, some a, nm, mb, mo⟩ =
        ⟨.jsonOk url (checkoutOrderId nowMs hex), store, true, true, true,
          some (toMinorUnits a)⟩) ∧
    (∀ (store : Store) (dbDown : Option String) (nowMs : Nat) (hex d tok gwMsg : String)
        (a : ℚ) (nm mb mo : Option String),
      d ≠ "" → 0 < a →
      (processCheckoutPayment store ⟨.ok tok, .error gwMsg, dbDown⟩ nowMs hex
          ⟨some d, some a, nm, mb, mo⟩).response =
        .jsonError 500 "Failed to process checkout payment" (some gwMsg) ∧
      (processCheckoutPayment store ⟨.ok tok, .error gwMsg, dbDown⟩ nowMs hex
          ⟨some d, some a, nm, mb, mo⟩).gatewayCalled = true) ∧
    (∀ (store : Store) (msg : String) (nowMs : Nat) (hex d tok u : String)
        (a : ℚ) (nm mb : Option String),
      d ≠ "" → 0 < a → tok ≠ "" → u ≠ "" →
      processPaymentRequest store ⟨.ok tok, .ok (some u), some msg⟩ nowMs hex
          ⟨some d, some a, nm, mb, none⟩ =
        ⟨.redirect u, store, true, true, true, some (toMinorUnits a)⟩) ∧
    (∀ (store : Store) (dbDown : Option String) (nowMs : Nat) (hex d tok gwMsg : String)
        (a : ℚ) (nm mb : Option String),
      d ≠ "" → 0 < a → tok ≠ "" →
      (processPaymentRequest store ⟨.ok tok, .error gwMsg, dbDown⟩ nowMs hex
          ⟨some d, some a, nm, mb, none⟩).response =
        .jsonError 500 "Failed to process payment request" (some gwMsg) ∧
      (processPaymentRequest store ⟨.ok tok, .error gwMsg, dbDown⟩ nowMs hex
          ⟨some d, some a, nm, mb, none⟩).gatewayCalled = true) := by
  refine ⟨?_, ?_, ?_, ?_⟩
  · intro store msg nowMs hex d tok a url nm mb mo hd ha
    have ha' : ¬ a ≤ 0 := not_le.mpr ha
    simp [processCheckoutPayment, jsTruthy, hd, ha', attemptCreatePayment]
  · intro store dbDown nowMs hex d tok gwMsg a nm mb mo hd ha
    have ha' : ¬ a ≤ 0 := not_le.mpr ha
    constructor <;> simp [processCheckoutPayment, jsTruthy, hd, ha']
  · intro store msg nowMs hex d tok u a nm mb hd ha htok hu
    have ha' : ¬ a ≤ 0 := not_le.mpr ha
    simp [processPaymentRequest, jsTruthy, hd, ha', htok, hu, attemptCreatePayment]
  · intro store dbDown nowMs hex d tok gwMsg a nm mb hd ha htok
    have ha' : ¬ a ≤ 0 := not_le.mpr ha
    constructor <;> simp [processPaymentRequest, jsTruthy, hd, ha', htok]

/-- Witness for C7 with the store unreachable and the gateway healthy
(payment proceeds), and with the gateway failing (500 with the detail). -/
theorem c7_persist_best_effort_gateway_fatal_witness :
    (processCheckoutPayment [] ⟨.ok "tok", .ok (some "https://pg/r"), some "db down"⟩ 7 "ff"
        ⟨some "shop.example.com", some 2, none, none, none⟩ =
      ⟨.jsonOk (some "https://pg/r") (checkoutOrderId 7 "ff"), [], true, true, true,
        some (toMinorUnits 2)⟩) ∧
    ((processCheckoutPayment [] ⟨.ok "tok", .error "BAD_REQUEST", some "db down"⟩ 7 "ff"
        ⟨some "shop.example.com", some 2, none, none, none⟩).response =
      .jsonError 500 "Failed to process checkout payment" (some "BAD_REQUEST")) ∧
    (processPaymentRequest [] ⟨.ok "tok", .ok (some "https://pg/r"), some "db down"⟩ 7 "ff"
        ⟨some "shop.example.com", some 2, none, none, none⟩ =
      ⟨.redirect "https://pg/r", [], true, true, true, some (toMinorUnits 2)⟩) :=
  ⟨c7_persist_best_effort_gateway_fatal.1 [] "db down" 7 "ff" "shop.example.com" "tok" 2
      (some "https://pg/r") none none none (by decide) (by norm_num),
    (c7_persist_best_effort_gateway_fatal.2.1 [] (some "db down") 7 "ff" "shop.example.com"
      "tok" "BAD_REQUEST" 2 none none none (by decide) (by norm_num)).1,
    c7_persist_best_effort_gateway_fatal.2.2.1 [] "db down" 7 "ff" "shop.example.com" "tok"
      "https://pg/r" 2 none none (by decide) (by norm_num) (by decide) (by decide)⟩

/-- Claim C9: a checkout-flow request lacking a domain, or whose amount does
not parse as a number greater than zero, fails with a 400 validation error
before any collaborator is touched: no persist attempt, no auth-token call
and no gateway call. -/
theorem c9_validation_before_gateway :
    (∀ (store : Store) (env : FlowEnv) (nowMs : Nat) (hex : String) (body : FlowBody),
      jsTruthy body.domain = false →
      processCheckoutPayment store env nowMs hex body =
        ⟨.jsonError 400 "Domain name is required" none, store, false, false, false, none⟩) ∧
    (∀ (store : Store) (env : FlowEnv) (nowMs : Nat) (hex : String) (body : FlowBody),
      jsTruthy body.domain = true → body.amount = none →
      processCheckoutPayment store env nowMs hex body =
        ⟨.jsonError 400 "Valid payment amount is required" none, store, false, false, false,
          none⟩) ∧
    (∀ (store : Store) (env : FlowEnv) (nowMs : Nat) (hex : String) (body : FlowBody) (a : ℚ),
      jsTruthy body.domain = true → body.amount = some a → a ≤ 0 →
      processCheckoutPayment store env nowMs hex body =
        ⟨.jsonError 400 "Valid payment amount is required" none, store, false, false, false,
          none⟩) := by
  refine ⟨?_, ?_, ?_⟩
  · intro store env nowMs hex body hd
    simp [processCheckoutPayment, hd]
  · intro store env nowMs hex body hd hav
    simp [processCheckoutPayment, hd, hav]
  · intro store env nowMs hex body a hd hav ha
    simp [processCheckoutPayment, hd, hav, ha]

/-- Witness for C9: missing domain, and a zero amount, each rejected with a
400 before the auth and gateway collaborators are invoked. -/
theorem c9_validation_before_gateway_witness :
    jsTruthy (none : Option String) = false ∧
    (processCheckoutPayment [] ⟨.ok "tok", .ok (some "u"), none⟩ 7 "ff"
        ⟨none, some 2, none, none, none⟩ =
      ⟨.jsonError 400 "Domain name is required" none, [], false, false, false, none⟩) ∧
    (processCheckoutPayment [] ⟨.ok "tok", .ok (some "u"), none⟩ 7 "ff"
        ⟨some "shop.example.com", some 0, none, none, none⟩ =
      ⟨.jsonError 400 "Valid payment amount is required" none, [], false, false, false,
        none⟩) :=
  ⟨by decide,
    c9_validation_before_gateway.1 [] ⟨.ok "tok", .ok (some "u"), none⟩ 7 "ff"
      ⟨none, some 2, none, none, none⟩ (by decide),
    c9_validation_before_gateway.2.2 [] ⟨.ok "tok", .ok (some "u"), none⟩ 7 "ff"
      ⟨some "shop.example.com", some 0, none, none, none⟩ 0 (by decide) rfl le_rfl⟩

/-- Claim C8, counterexample: the amount `0.001` passes the `> 0` validation
of the checkout flow, yet the minor-unit amount sent to the gateway is
`Math.round(0.001 * 100) = 0`, which is not a positive integer. -/
theorem c8_counterexample :
    (0 : ℚ) < 1/1000 ∧
    (processCheckoutPayment [] ⟨.ok "tok", .ok (some "u"), some "down"⟩ 7 "ff"
        ⟨some "shop.example.com", some (1/1000), none, none, none⟩).response =
      .jsonOk (some "u") (checkoutOrderId 7 "ff") ∧
    (processCheckoutPayment [] ⟨.ok "tok", .ok (some "u"), some "down"⟩ 7 "ff"
        ⟨some "shop.example.com", some (1/1000), none, none, none⟩).sentAmount = some 0 ∧
    ¬ (0 : ℤ) < 0 := by
  have hmin : toMinorUnits (1/1000) = 0 := by
    unfold toMinorUnits mathRound
    rw [Int.floor_eq_iff]
    constructor <;> norm_num
  have ha : ¬ (1/1000 : ℚ) ≤ 0 := by norm_num
  refine ⟨by norm_num, ?_, ?_, by omega⟩ <;>
    (simp [processCheckoutPayment, jsTruthy, hmin]; norm_num [hmin])

/-- Claim C8, amended: for every valid amount the minor-unit value sent to
the gateway equals `Math.round(amount * 100)` (round half up) and is a
non-negative integer; it is positive whenever the amount is at least
`1/200` of a rupee (half a paisa), while validated amounts below that bound
are sent as `0`. -/
theorem c8_amended (a : ℚ) (ha : 0 < a) :
    toMinorUnits a = mathRound (a * 100) ∧
    0 ≤ toMinorUnits a ∧
    (1/200 ≤ a → 0 < toMinorUnits a) ∧
    (∀ (store : Store) (url : Option String) (dbDown : Option String) (nowMs : Nat)
        (hex d tok : String) (nm mb mo : Option String), d ≠ "" →
      (processCheckoutPayment store ⟨.ok tok, .ok url, dbDown⟩ nowMs hex
          ⟨some d, some a, nm, mb, mo⟩).sentAmount = some (toMinorUnits a)) := by
  refine ⟨rfl, ?_, ?_, ?_⟩
  · unfold toMinorUnits mathRound
    rw [Int.floor_nonneg]
    nlinarith
  · intro hbound
    unfold toMinorUnits mathRound
    have h1 : (1 : ℤ) ≤ ⌊a * 100 + 1/2⌋ := by
      rw [Int.le_floor]
      push_cast
      nlinarith
    omega
  · intro store url dbDown nowMs hex d tok nm mb mo hd
    have ha' : ¬ a ≤ 0 := not_le.mpr ha
    simp [processCheckoutPayment, jsTruthy, hd, ha', attemptCreatePayment]

/-- Witness for C8 amended at the amount `49.99`: the gateway payload
carries `Math.round(49.99 * 100) = 4999` minor units. -/
theorem c8_amended_witness :
    (0 : ℚ) < 4999/100 ∧
    (0 ≤ toMinorUnits (4999/100) ∧
      (processCheckoutPayment [] ⟨.ok "tok", .ok (some "u"), none⟩ 7 "ff"
          ⟨some "shop.example.com", some (4999/100), none, none, none⟩).sentAmount =
        some (toMinorUnits (4999/100))) :=
  ⟨by norm_num,
    (c8_amended (4999/100) (by norm_num)).2.1,
    (c8_amended (4999/100) (by norm_num)).2.2.2 [] (some "u") none 7 "ff"
      "shop.example.com" "tok" none none none (by decide)⟩

end PhonePe
